import Mathlib

/-!
Shallow embedding of `src/tools/level_converter.py` (the TMX → GBA level
compiler) and proofs about the claims of the specification.

Python integers are modelled as `Int` (tile IDs, GIDs, coordinates and
dimensions can in principle be negative or large), list indices and counts as
`Nat`.  Python dictionaries keyed by integers are modelled as functions into
`Option`, `sorted(set(..))` as `Finset.sort` over `List.toFinset`, and the
fallible dictionary subscript `d[k]` as an `Option`-valued lookup.  Fields that
the code reads out of the parsed `data` dictionary and that can be absent are
`Option`-valued; fields that the parser (`parse_tmx_file`) always writes and
whose Python type checks (`isinstance(..., int)`, `'x' not in spawn`, ...) are
consequently vacuous in this typed model are plain fields, with the vacuous
branches noted at the definition they belong to.
-/

/-- A player-spawn position (`data['playerSpawn']`, a dict with `x`/`y`). -/
structure SpawnPt where
  x : Int
  y : Int
deriving DecidableEq

/-- One parsed tile layer (an element of `data['layers']`): name, render
metadata and the grid of tile IDs (`layer['tiles']`, a list of rows). -/
structure RawLayer where
  name : String
  bgLayer : Int
  priority : Int
  tiles : List (List Int)
deriving DecidableEq

/-- One entry of `data['tilesets']` as built by `parse_tmx_file`:
name, canonical first tile ID and tile count. -/
structure TilesetOut where
  name : String
  firstId : Int
  tileCount : Nat
deriving DecidableEq

/-- One parsed placed object (an element of `data['objects']`). -/
structure ObjData where
  type : String
  x : Int
  y : Int
  properties : List (String × String)
deriving DecidableEq

/-- The level data dictionary consumed by `validate_level`/`generate_header`.
`name`, `width`, `height`, `layers`, `playerSpawn` are `Option`-valued because
`validate_level` explicitly checks their presence (`field not in data`); the
remaining fields are always written by the parser (`objects`, `tilesets`,
`collisionTiles` are initialised in the `data` literal, `tileWidth`/
`tileHeight` default to 8 there), so `'objects' in data` and
`data.get('tileWidth', 8)` always succeed and are modelled as plain fields. -/
structure LevelData where
  name : Option String
  width : Option Int
  height : Option Int
  tileWidth : Int
  tileHeight : Int
  layers : Option (List RawLayer)
  playerSpawn : Option SpawnPt
  objects : List ObjData
  tilesets : List TilesetOut
  collisionTiles : List Int
deriving DecidableEq

/-- One accumulated validation failure (`errors.append(...)` in
`validate_level`).  Constructors carry the data interpolated into the Python
message so that distinct reported problems stay distinct.  The branches of the
Python code that can only fire on values of the wrong dynamic type
(`not isinstance(width, int)`, `objects` not a list, an object dict missing
`type`/`x`/`y`, a spawn dict missing `x`/`y`) are unreachable in this typed
model and have no constructor. -/
inductive Violation where
  | missingField (f : String)
  | invalidWidth (w : Int)
  | invalidHeight (h : Int)
  | noLayers
  | layerRows (layerIdx rows : Nat) (expected : Int)
  | rowCols (layerIdx rowIdx cols : Nat) (expected : Int)
  | invalidTile (layerIdx rowIdx colIdx : Nat) (t : Int)
  | spawnXOut (x : Int)
  | spawnYOut (y : Int)
  | tooManyObjects (n : Nat)
deriving DecidableEq

/-- The required-field check at the top of `validate_level`
(`for field in required_fields: if field not in data: ...`), in source
order. -/
def requiredErrors (d : LevelData) : List Violation :=
  (if d.name.isNone then [.missingField "name"] else []) ++
  (if d.width.isNone then [.missingField "width"] else []) ++
  (if d.height.isNone then [.missingField "height"] else []) ++
  (if d.layers.isNone then [.missingField "layers"] else []) ++
  (if d.playerSpawn.isNone then [.missingField "playerSpawn"] else [])

/-- Per-layer dimension and tile-range checks of `validate_level`: the row
count against `height`, then per row the column count against `width` and per
cell the bound `0 ≤ tile_id ≤ 65535`, in source order. -/
def layerErrors (width height : Int) (layerIdx : Nat) (l : RawLayer) : List Violation :=
  (if (l.tiles.length : Int) ≠ height then [.layerRows layerIdx l.tiles.length height] else []) ++
  (l.tiles.enum.flatMap fun p =>
    (if (p.2.length : Int) ≠ width then [.rowCols layerIdx p.1 p.2.length width] else []) ++
    (p.2.enum.filterMap fun q =>
      if q.2 < 0 ∨ 65535 < q.2 then some (.invalidTile layerIdx p.1 q.1 q.2) else none))

/-- The `for layer_idx, layer in enumerate(layers)` loop of `validate_level`. -/
def allLayerErrors (width height : Int) (layers : List RawLayer) : List Violation :=
  layers.enum.flatMap fun p => layerErrors width height p.1 p.2

/-- The player-spawn bounds checks of `validate_level`
(`0 ≤ x < width*tileWidth`, `0 ≤ y < height*tileHeight`). -/
def spawnErrors (sp : SpawnPt) (width height tileWidth tileHeight : Int) : List Violation :=
  (if sp.x < 0 ∨ width * tileWidth ≤ sp.x then [.spawnXOut sp.x] else []) ++
  (if sp.y < 0 ∨ height * tileHeight ≤ sp.y then [.spawnYOut sp.y] else [])

/-- The object-count check of `validate_level` (`len(objects) > 256`). -/
def objectErrors (objs : List ObjData) : List Violation :=
  if 256 < objs.length then [.tooManyObjects objs.length] else []

/-- The body of `validate_level` after the required-field gate: dimension,
layer, spawn and object checks, accumulated in source order. -/
def mainChecks (d : LevelData) : List Violation :=
  (if d.width.getD 0 ≤ 0 ∨ 256 < d.width.getD 0 then [.invalidWidth (d.width.getD 0)] else []) ++
  (if d.height.getD 0 ≤ 0 ∨ 256 < d.height.getD 0 then [.invalidHeight (d.height.getD 0)] else []) ++
  (if (d.layers.getD []).isEmpty then [.noLayers] else []) ++
  allLayerErrors (d.width.getD 0) (d.height.getD 0) (d.layers.getD []) ++
  spawnErrors (d.playerSpawn.getD ⟨0, 0⟩) (d.width.getD 0) (d.height.getD 0)
    d.tileWidth d.tileHeight ++
  objectErrors d.objects

/-- The function `validate_level`: the list of violations the raised `ValueError` reports.
The function raises immediately after the required-field loop when any field is
missing (`if errors: raise ...`), so in that case none of the later checks
contribute; otherwise all remaining checks run and their findings are reported
together at the end.  An empty result means validation passed. -/
def validate_level (d : LevelData) : List Violation :=
  if (requiredErrors d).isEmpty then mainChecks d else requiredErrors d

/-- The flattened multiset of tile IDs across all layers (`all_tiles` in
`generate_header`: per layer `[tile for row in layer['tiles'] for tile in row]`,
accumulated with `extend`). -/
def allTiles (layers : List RawLayer) : List Int :=
  layers.flatMap fun l => l.tiles.flatten

/-- The unique-tile count used for the VRAM warning in `validate_level`:
the size of the set of tile IDs strictly greater than 0 across all layers
(`if tile_id > 0: unique_tiles.add(tile_id)`); `len` of a Python set is the
number of distinct elements, i.e. the length after removing duplicates. -/
def uniqueNonzeroTileCount (layers : List RawLayer) : Nat :=
  ((allTiles layers).filter fun t => 0 < t).dedup.length

/-- Whether `validate_level` prints the VRAM warning
(`if len(unique_tiles) > 1000`).  The warning never adds to `errors`. -/
def vramWarning (d : LevelData) : Bool :=
  1000 < uniqueNonzeroTileCount (d.layers.getD [])

/-- The list `unique_tiles = sorted(set(all_tiles))` of `generate_header`: the
ascending duplicate-free list of the tile IDs used across all layers.
`sorted(set(l))` is characterised extensionally — ascending, no duplicates,
same members as `l` — which the composition of duplicate removal and a sort
realises. -/
def unique_tiles (layers : List RawLayer) : List Int :=
  (allTiles layers).dedup.insertionSort (· ≤ ·)

/-- The lookup `PALETTE_MAP.get(name, 0)` in `generate_header`. -/
def PALETTE_MAP (name : String) : Nat :=
  if name = "grassy_stone" then 0
  else if name = "plants" then 2
  else if name = "decals" then 3
  else 0

/-- The helper `get_tile_palette_bank` of `generate_header`: 0 for the empty tile,
otherwise the palette bank of the first tileset whose range
`[firstId, firstId+tileCount)` contains the tile, else 0. -/
def get_tile_palette_bank (tilesets : List TilesetOut) (tile_id : Int) : Nat :=
  if tile_id = 0 then 0
  else
    match tilesets.find? (fun ts => decide (ts.firstId ≤ tile_id ∧ tile_id < ts.firstId + ts.tileCount)) with
    | some ts => PALETTE_MAP ts.name
    | none => 0

/-- The dictionary `tile_id_to_vram` of `generate_header` (built by
`enumerate(unique_tiles)`; since `unique_tiles` has no duplicates the entry of
a key is its index in `unique_tiles`), as a fallible lookup: `none` models the
`KeyError` a subscript on an absent key would raise. -/
def tile_id_to_vram (layers : List RawLayer) (t : Int) : Option Nat :=
  if t ∈ unique_tiles layers then some ((unique_tiles layers).indexOf t) else none

/-- One compiled (slot-remapped) layer of the emitted header. -/
structure CompiledLayer where
  name : String
  bgLayer : Int
  priority : Int
  tiles : List Nat
deriving DecidableEq

/-- Remapping of one layer in `generate_header`
(`remapped_tiles = [tile_id_to_vram[tile] for tile in flat_tiles]`). -/
def remapLayer (layers : List RawLayer) (l : RawLayer) : Option CompiledLayer :=
  (l.tiles.flatten.mapM (tile_id_to_vram layers)).map fun ts =>
    ⟨l.name, l.bgLayer, l.priority, ts⟩

/-- The `remapped_layers` loop of `generate_header`. -/
def remapLayers (layers : List RawLayer) : Option (List CompiledLayer) :=
  layers.mapM (remapLayer layers)

/-- The `remapped_collision_tiles` loop of `generate_header`: every configured
solid tile ID that is a key of `tile_id_to_vram` contributes its VRAM index;
absent ones are skipped. -/
def remapped_collision_tiles (layers : List RawLayer) (collision : List Int) : List Nat :=
  collision.filterMap (tile_id_to_vram layers)

/-- One iteration of the loop in `generate_collision_bitmap`.  Tile IDs outside
`[0, 2048)` are skipped; otherwise (the value is a natural number `t`) the code
computes `byte_index = t // 8`, `bit_index = t % 8`, `u32_index =
byte_index // 4`, `byte_offset = byte_index % 4` and ORs
`(1 << bit_index) << (byte_offset * 8)` into word `u32_index`.  The guarded
value is non-negative, so its Python integer arithmetic coincides with the
`Nat` arithmetic on `tid.toNat` used here. -/
def bitmapStep (bm : List Nat) (tid : Int) : List Nat :=
  if tid < 0 ∨ 2048 ≤ tid then bm
  else
    let t := tid.toNat
    let byteIndex := t / 8
    let bitIndex := t % 8
    let u32Index := byteIndex / 4
    let byteOffset := byteIndex % 4
    bm.set u32Index (bm.getD u32Index 0 ||| ((1 <<< bitIndex) <<< (byteOffset * 8)))

/-- The function `generate_collision_bitmap`: start from 64 zero words and set one bit per
in-range solid tile ID. -/
def generate_collision_bitmap (collision_tiles : List Int) : List Nat :=
  collision_tiles.foldl bitmapStep (List.replicate 64 0)

/-- The compiled level emitted by `generate_header` (the data content of the
header: the `Level` record together with the arrays it points at). -/
structure CompiledLevel where
  name : String
  width : Int
  height : Int
  uniqueTileIds : List Int
  tilePaletteBanks : List Nat
  layers : List CompiledLayer
  collisionBitmap : List Nat
  objects : List ObjData
  spawn : SpawnPt
deriving DecidableEq

/-- How a compilation run can fail: with the aggregated validation error of
`validate_level`, or with the `KeyError` a `tile_id_to_vram[tile]` subscript
would raise on an absent key. -/
inductive CompileError where
  | validation (errs : List Violation)
  | keyError
deriving DecidableEq

/- ---------------------------------------------------------------------
Parser-side definitions (`parse_tmx_file`): the authored-GID → game-tile-ID
mapping, layer render metadata, and object-layer processing.
--------------------------------------------------------------------- -/

/-- One tileset declaration of the authored document after its external TSX
descriptor has been read: the document-declared `firstgid` together with the
descriptor's `name` and `tilecount` (file reading itself is I/O and outside
the embedding; the triple is exactly the data the mapping loop consumes). -/
structure TilesetDecl where
  firstgid : Int
  name : String
  tileCount : Nat
deriving DecidableEq

/-- The lookup `EXPECTED_RANGES.get(tileset_name, firstgid)` in `parse_tmx_file`: the
canonical first tile ID of a registered atlas name, falling back to the
document-declared `firstgid` for unregistered names. -/
def expectedFirstId (name : String) (firstgid : Int) : Int :=
  if name = "grassy_stone" then 1
  else if name = "plants" then 56
  else if name = "decals" then 216
  else firstgid

/-- A single Python dictionary assignment `m[k] = v` on an `Int`-keyed
dictionary modelled as a function: later assignments win. -/
def insertGid (m : Int → Option Int) (k v : Int) : Int → Option Int :=
  fun g => if g = k then some v else m g

/-- The inner loop of `parse_tmx_file` for one tileset:
`for i in range(tile_count): gid_to_game_id[firstgid + i] = expected_first_id + i`. -/
def addTileset (m : Int → Option Int) (d : TilesetDecl) : Int → Option Int :=
  (List.range d.tileCount).foldl
    (fun (m : Int → Option Int) (i : Nat) =>
      insertGid m (d.firstgid + i) (expectedFirstId d.name d.firstgid + i)) m

/-- The `gid_to_game_id` dictionary: initialised to `{0: 0}` and then extended
by every tileset declaration in document order. -/
def buildGidMap (decls : List TilesetDecl) : Int → Option Int :=
  decls.foldl addTileset fun g => if g = 0 then some 0 else none

/-- The lookup `gid_to_game_id.get(gid, 0)`: the total remapping function applied to
every cell of every parsed layer. -/
def gidToGameId (decls : List TilesetDecl) (g : Int) : Int :=
  (buildGidMap decls g).getD 0

/-- Whether a tileset declaration's authored range
`[firstgid, firstgid + tileCount)` contains a GID. -/
def coversGid (d : TilesetDecl) (g : Int) : Prop :=
  d.firstgid ≤ g ∧ g < d.firstgid + d.tileCount

instance (d : TilesetDecl) (g : Int) : Decidable (coversGid d g) := by
  unfold coversGid; infer_instance

/-- The per-position render-metadata defaults of the layer loop in
`parse_tmx_file`: `bg_layer = 2, priority = 1` initially, overwritten to
`(2, 1)` for layer index 0 and `(1, 0)` for layer index 1. -/
def defaultMeta (layerIndex : Nat) : Int × Int :=
  if layerIndex = 0 then (2, 1)
  else if layerIndex = 1 then (1, 0)
  else (2, 1)

/-- The property loop of the layer parser: each named property `bgLayer` or
`priority` overwrites the corresponding component, in document order. -/
def applyLayerProps (meta : Int × Int) (props : List (String × Int)) : Int × Int :=
  props.foldl
    (fun m p =>
      if p.1 = "bgLayer" then (p.2, m.2)
      else if p.1 = "priority" then (m.1, p.2)
      else m)
    meta

/-- The `(bg_layer, priority)` pair the parser records for the layer at a given
position with a given property list. -/
def layerMeta (layerIndex : Nat) (props : List (String × Int)) : Int × Int :=
  applyLayerProps (defaultMeta layerIndex) props

/-- The values of all properties with a given name, in document order (used to
state which explicit property value wins). -/
def propValues (name : String) (props : List (String × Int)) : List Int :=
  props.filterMap fun p => if p.1 = name then some p.2 else none

/-- A placed entity of an object group, before spawn extraction:
`id` is unused by the converter beyond reading it, so it is omitted. -/
structure RawObj where
  name : String
  type : String
  x : Int
  y : Int
  props : List (String × String)
deriving DecidableEq

/-- ASCII lowercasing of one character (`A`–`Z` shifted into `a`–`z`). -/
def lowerChar (c : Char) : Char :=
  if 'A' ≤ c ∧ c ≤ 'Z' then Char.ofNat (c.toNat + 32) else c

/-- Python's `str.lower()`, restricted to ASCII case folding (the strings the
converter compares against are ASCII, so the truth of the comparisons below is
unchanged). -/
def lowerString (s : String) : String :=
  ⟨s.data.map lowerChar⟩

/-- The spawn test of the object loop:
`obj_type.lower() == 'playerspawn' or obj_name.lower() == 'playerspawn'`. -/
def isSpawnObj (o : RawObj) : Bool :=
  lowerString o.type = "playerspawn" || lowerString o.name = "playerspawn"

/-- The object record built for a non-spawn entity; its `type` is the Python
truthiness chain `obj_type or obj_name or 'object'` (a non-empty string is
truthy). -/
def toObjData (o : RawObj) : ObjData :=
  ⟨if o.type = "" then (if o.name = "" then "object" else o.name) else o.type,
   o.x, o.y, o.props⟩

/-- The object-group loop of `parse_tmx_file` over the concatenation of all
object groups in document order: a spawn entity overwrites
`data['playerSpawn']` (initially `{x: 0, y: 0}`) and is not appended; every
other entity is appended to `data['objects']`. -/
def processObjects (objs : List RawObj) : SpawnPt × List ObjData :=
  objs.foldl
    (fun acc o =>
      if isSpawnObj o then (⟨o.x, o.y⟩, acc.2)
      else (acc.1, acc.2 ++ [toObjData o]))
    (⟨0, 0⟩, [])

/-- The `main` pipeline after parsing: `validate_level` followed by
`generate_header` (its data content). -/
def compileLevel (d : LevelData) : Except CompileError CompiledLevel :=
  if (validate_level d).isEmpty then
    match remapLayers (d.layers.getD []) with
    | none => .error .keyError
    | some cls =>
        .ok
          { name := d.name.getD ""
            width := d.width.getD 0
            height := d.height.getD 0
            uniqueTileIds := unique_tiles (d.layers.getD [])
            tilePaletteBanks :=
              (unique_tiles (d.layers.getD [])).map (get_tile_palette_bank d.tilesets)
            layers := cls
            collisionBitmap :=
              generate_collision_bitmap
                ((remapped_collision_tiles (d.layers.getD []) d.collisionTiles).map Int.ofNat)
            objects := d.objects
            spawn := d.playerSpawn.getD ⟨0, 0⟩ }
  else .error (.validation (validate_level d))

/- ---------------------------------------------------------------------
Generic helper lemmas.
--------------------------------------------------------------------- -/

/-- Mapping with `mapM` over `Option` succeeds when every element does. -/
theorem mapM_isSome {α β : Type} (f : α → Option β) :
    ∀ xs : List α, (∀ x ∈ xs, (f x).isSome) → (xs.mapM f).isSome = true := by
  intro xs
  rw [← List.mapM'_eq_mapM]
  induction xs with
  | nil => intro _; rfl
  | cons x xs ih =>
      intro h
      have hx := h x (List.mem_cons_self x xs)
      obtain ⟨y, hy⟩ := Option.isSome_iff_exists.mp hx
      have hxs := ih fun a ha => h a (List.mem_cons_of_mem x ha)
      obtain ⟨ys, hys⟩ := Option.isSome_iff_exists.mp hxs
      simp [List.mapM'_cons, hy, hys]

/-- A successful `mapM` over `Option` relates inputs to outputs pointwise. -/
theorem mapM_forall₂ {α β : Type} (f : α → Option β) :
    ∀ {xs : List α} {ys : List β}, xs.mapM f = some ys →
      List.Forall₂ (fun a b => f a = some b) xs ys := by
  intro xs
  rw [← List.mapM'_eq_mapM]
  induction xs with
  | nil =>
      intro ys h
      cases h
      exact List.Forall₂.nil
  | cons x xs ih =>
      intro ys h
      simp only [List.mapM'_cons] at h
      cases hx : f x with
      | none => rw [hx] at h; cases h
      | some y =>
          rw [hx] at h
          cases hxs : xs.mapM' f with
          | none => rw [hxs] at h; cases h
          | some zs =>
              rw [hxs] at h
              cases h
              exact List.Forall₂.cons hx (ih hxs)

/- ---------------------------------------------------------------------
The unique-tile table and VRAM slot lookup (C2, C9).
--------------------------------------------------------------------- -/

/-- The list `unique_tiles` has exactly the tile IDs used by the layers as members. -/
theorem mem_unique_tiles {layers : List RawLayer} {t : Int} :
    t ∈ unique_tiles layers ↔ t ∈ allTiles layers := by
  unfold unique_tiles
  rw [List.mem_insertionSort, List.mem_dedup]

/-- The list `unique_tiles` has no duplicates. -/
theorem nodup_unique_tiles (layers : List RawLayer) : (unique_tiles layers).Nodup :=
  (List.perm_insertionSort _ _).nodup_iff.mpr (List.nodup_dedup _)

/-- A cell of any layer is a member of `allTiles`. -/
theorem mem_allTiles_of_cell {layers : List RawLayer} {l : RawLayer} {row : List Int} {t : Int}
    (hl : l ∈ layers) (hr : row ∈ l.tiles) (ht : t ∈ row) : t ∈ allTiles layers := by
  unfold allTiles
  exact List.mem_flatMap.mpr ⟨l, hl, List.mem_flatten.mpr ⟨row, hr, ht⟩⟩

/-- The slot lookup succeeds on every tile ID used by some layer. -/
theorem tile_id_to_vram_of_mem {layers : List RawLayer} {t : Int}
    (h : t ∈ allTiles layers) :
    tile_id_to_vram layers t = some ((unique_tiles layers).indexOf t) := by
  unfold tile_id_to_vram
  rw [if_pos (mem_unique_tiles.mpr h)]

/-- C2: round-trip of VRAM compaction.  For every layer of the document, every
row of that layer and every canonical tile ID occupying a cell of that row, the
slot lookup succeeds, and indexing the emitted `uniqueTileIds` sequence with
the resulting VRAM slot recovers exactly that canonical tile ID: slot
assignment loses no information about which canonical tile occupies a cell. -/
theorem c2_vram_roundtrip (layers : List RawLayer) (l : RawLayer) (row : List Int) (t : Int)
    (hl : l ∈ layers) (hr : row ∈ l.tiles) (ht : t ∈ row) :
    tile_id_to_vram layers t = some ((unique_tiles layers).indexOf t) ∧
      (unique_tiles layers).getD ((unique_tiles layers).indexOf t) 0 = t := by
  have hmem : t ∈ allTiles layers := mem_allTiles_of_cell hl hr ht
  have hu : t ∈ unique_tiles layers := mem_unique_tiles.mpr hmem
  refine ⟨tile_id_to_vram_of_mem hmem, ?_⟩
  have hlt : (unique_tiles layers).indexOf t < (unique_tiles layers).length :=
    List.indexOf_lt_length.mpr hu
  rw [List.getD_eq_getElem?_getD, List.getElem?_eq_getElem hlt]
  simp [List.getElem_indexOf]

/-- Witness for C2 at a concrete document: one layer whose single row holds
canonical tiles 1 and 3; the slot of tile 3 indexes back to tile 3. -/
theorem c2_vram_roundtrip_witness :
    tile_id_to_vram [⟨"main", 2, 1, [[1, 3]]⟩] 3
        = some ((unique_tiles [⟨"main", 2, 1, [[1, 3]]⟩]).indexOf 3) ∧
      (unique_tiles [⟨"main", 2, 1, [[1, 3]]⟩]).getD
          ((unique_tiles [⟨"main", 2, 1, [[1, 3]]⟩]).indexOf 3) 0 = 3 :=
  c2_vram_roundtrip [⟨"main", 2, 1, [[1, 3]]⟩] ⟨"main", 2, 1, [[1, 3]]⟩ [1, 3] 3
    (by decide) (by decide) (by decide)

/-- Rewriting every layer grid to VRAM slots succeeds on every document:
each cell value is a key of the slot mapping by construction. -/
theorem remapLayers_isSome (layers : List RawLayer) :
    (remapLayers layers).isSome = true := by
  unfold remapLayers
  apply mapM_isSome
  intro l hl
  unfold remapLayer
  have hsome : (l.tiles.flatten.mapM (tile_id_to_vram layers)).isSome = true := by
    apply mapM_isSome
    intro t ht
    rw [tile_id_to_vram_of_mem (List.mem_flatMap.mpr ⟨l, hl, ht⟩)]
    rfl
  obtain ⟨ys, hys⟩ := Option.isSome_iff_exists.mp hsome
  rw [hys]
  rfl

/-- C9: the canonical-ID-to-VRAM-slot lookup performed while rewriting the
layer grids never fails.  The unique-tile set is computed over the cells of all
layers of the same document, so every cell value of every layer is a key of
the slot mapping and the remap of every layer succeeds, for every input
document. -/
theorem c9_slot_rewrite_total (layers : List RawLayer) :
    (remapLayers layers).isSome = true :=
  remapLayers_isSome layers

/- ---------------------------------------------------------------------
The collision bitmap (C3).
--------------------------------------------------------------------- -/

/-- One `bitmapStep` preserves the 64-word size of the bitmap. -/
theorem length_bitmapStep (bm : List Nat) (tid : Int) :
    (bitmapStep bm tid).length = bm.length := by
  unfold bitmapStep
  split
  · rfl
  · simp

/-- Effect of one loop iteration of `generate_collision_bitmap` on an
arbitrary bit of the table: the bit for the processed tile ID becomes set and
every other bit is unchanged. -/
theorem testBit_bitmapStep (bm : List Nat) (hbm : bm.length = 64) (tid : Int) (w b : Nat)
    (hw : w < 64) (hb : b < 32) :
    Nat.testBit ((bitmapStep bm tid).getD w 0) b
      = (Nat.testBit (bm.getD w 0) b || decide ((32 * w + b : Int) = tid)) := by
  unfold bitmapStep
  split
  · have : ¬ ((32 * w + b : Int) = tid) := by omega
    simp [this]
  · rename_i hrange
    have ht0 : 0 ≤ tid := by omega
    have ht1 : tid.toNat < 2048 := by omega
    have htid : tid = (tid.toNat : Int) := by omega
    set t := tid.toNat with hset
    have hu : t / 8 / 4 < bm.length := by rw [hbm]; omega
    have hmask : (1 <<< (t % 8)) <<< (t % 8 / 8 * 8 + t / 8 % 4 * 8) = 2 ^ (t % 32) := by
      rw [Nat.shiftLeft_eq, Nat.shiftLeft_eq, one_mul, ← pow_add]
      congr 1
      omega
    by_cases hcase : w = t / 8 / 4
    · subst hcase
      rw [List.getD_eq_getElem?_getD, List.getElem?_set_self hu]
      simp only [Option.getD_some]
      rw [Nat.testBit_or]
      have hm : (1 <<< (t % 8)) <<< (t / 8 % 4 * 8) = 2 ^ (t % 32) := by
        rw [Nat.shiftLeft_eq, Nat.shiftLeft_eq, one_mul, ← pow_add]
        congr 1
        omega
      rw [hm, Nat.testBit_two_pow, List.getD_eq_getElem?_getD]
      congr 1
      rw [decide_eq_decide]
      omega
    · have hne : t / 8 / 4 ≠ w := fun h => hcase h.symm
      rw [List.getD_eq_getElem?_getD, List.getElem?_set_ne hne, ← List.getD_eq_getElem?_getD]
      have : ¬ ((32 * w + b : Int) = tid) := by omega
      simp [this]

/-- The whole loop of `generate_collision_bitmap`: a bit of the result is set
iff it was set in the starting table or its index equals one of the processed
tile IDs. -/
theorem testBit_foldl_bitmap (ts : List Int) :
    ∀ bm : List Nat, bm.length = 64 → ∀ w b : Nat, w < 64 → b < 32 →
      Nat.testBit ((ts.foldl bitmapStep bm).getD w 0) b
        = (Nat.testBit (bm.getD w 0) b || decide ((32 * w + b : Int) ∈ ts)) := by
  induction ts with
  | nil => intro bm _ w b _ _; simp
  | cons t ts ih =>
      intro bm hbm w b hw hb
      rw [List.foldl_cons,
        ih (bitmapStep bm t) (by rw [length_bitmapStep, hbm]) w b hw hb,
        testBit_bitmapStep bm hbm t w b hw hb]
      simp [List.mem_cons, Bool.or_assoc]

/-- C3: for every list of solid VRAM slot indices and every word index
`w < 64` and bit index `b < 32`, the bit at word `w`, position `b` of the
emitted 64-word collision table is set exactly when slot `s = 32*w + b`
(equivalently: word `s / 32`, bit `s % 32` for a member `s ∈ [0, 2048)`) is a
member of the list; every bit not corresponding to a member is clear. -/
theorem c3_collision_bits (S : List Int) (w b : Nat) (hw : w < 64) (hb : b < 32) :
    Nat.testBit ((generate_collision_bitmap S).getD w 0) b = true
      ↔ (32 * w + b : Int) ∈ S := by
  unfold generate_collision_bitmap
  rw [testBit_foldl_bitmap S _ (by simp) w b hw hb]
  have hz : (List.replicate 64 (0 : Nat)).getD w 0 = 0 := by
    rw [List.getD_eq_getElem?_getD, List.getElem?_replicate]
    split <;> rfl
  rw [hz]
  simp

/-- Witness for C3: with solid slot set `{3}`, word 0 bit 3 of the table is
set. -/
theorem c3_collision_bits_witness :
    Nat.testBit ((generate_collision_bitmap [3]).getD 0 0) 3 = true :=
  (c3_collision_bits [3] 0 3 (by decide) (by decide)).mpr (by decide)

/- ---------------------------------------------------------------------
Object-layer processing (C7, C10) and layer render metadata (C8).
--------------------------------------------------------------------- -/

/-- Characterisation of the object loop: the recorded spawn point is the
position of the last spawn-matching entity in document order (the first one of
the reversed list), defaulting to `(0, 0)`, and the object list consists of
exactly the non-spawn entities, in order, converted by `toObjData`. -/
theorem processObjects_spec (objs : List RawObj) :
    processObjects objs
      = (((objs.reverse.find? isSpawnObj).map fun o => SpawnPt.mk o.x o.y).getD ⟨0, 0⟩,
         (objs.filter fun o => !isSpawnObj o).map toObjData) := by
  induction objs using List.reverseRecOn with
  | nil => rfl
  | append_singleton objs o ih =>
      unfold processObjects at ih ⊢
      rw [List.foldl_append, List.foldl_cons, List.foldl_nil, ih]
      rw [List.reverse_append, List.reverse_singleton, List.singleton_append,
        List.filter_append]
      cases ho : isSpawnObj o with
      | true => simp [List.find?_cons, ho]
      | false => simp [List.find?_cons, ho]

/-- C7: during object parsing, every entity whose declared type or name
case-insensitively equals "PlayerSpawn" sets the document spawn point to its
position, the last such entity in document order winning (the spawn is the
first spawn-matching entity of the reversed object sequence, defaulting to the
initial `(0, 0)`); spawn entities are never appended to the object list, and
all other entities are appended, in order, with their property bags. -/
theorem c7_spawn_extraction (objs : List RawObj) :
    ((processObjects objs).1
        = (((objs.reverse.find? isSpawnObj).map fun o => SpawnPt.mk o.x o.y).getD ⟨0, 0⟩))
      ∧ (processObjects objs).2 = (objs.filter fun o => !isSpawnObj o).map toObjData := by
  rw [processObjects_spec]
  exact ⟨rfl, rfl⟩

/-- The type of a converted non-spawn entity is never the empty string. -/
theorem toObjData_type_ne_empty (o : RawObj) : (toObjData o).type ≠ "" := by
  unfold toObjData
  dsimp only
  split
  · split
    · decide
    · assumption
  · assumption

/-- C10: every entity emitted to the object list has a non-empty type string,
and every non-spawn entity of the document is emitted with the fallback type:
the declared type when non-empty, else the entity's name when non-empty, else
the literal `"object"`. -/
theorem c10_nonempty_type (objs : List RawObj) :
    (∀ od ∈ (processObjects objs).2, od.type ≠ "") ∧
      ∀ o ∈ objs, isSpawnObj o = false →
        toObjData o ∈ (processObjects objs).2 ∧
          (toObjData o).type
            = (if o.type = "" then (if o.name = "" then "object" else o.name) else o.type) := by
  constructor
  · intro od h
    rw [processObjects_spec] at h
    obtain ⟨o, _, rfl⟩ := List.mem_map.mp h
    exact toObjData_type_ne_empty o
  · intro o ho hsp
    refine ⟨?_, rfl⟩
    rw [processObjects_spec]
    apply List.mem_map_of_mem
    apply List.mem_filter_of_mem ho
    rw [hsp]
    rfl

/-- Witness for C10: an entity with empty declared type and name is emitted
with type `"object"`, which is non-empty. -/
theorem c10_nonempty_type_witness :
    (⟨"object", 5, 6, []⟩ : ObjData).type ≠ "" :=
  (c10_nonempty_type [⟨"", "", 5, 6, []⟩]).1 ⟨"object", 5, 6, []⟩ (by decide)

/-- The property loop rewrites each component to the value of the last
matching named property, keeping the start value when none matches. -/
theorem applyLayerProps_spec (props : List (String × Int)) :
    ∀ meta : Int × Int,
      applyLayerProps meta props
        = ((propValues "bgLayer" props).getLast?.getD meta.1,
           (propValues "priority" props).getLast?.getD meta.2) := by
  induction props using List.reverseRecOn with
  | nil => intro meta; rfl
  | append_singleton props p ih =>
      intro meta
      unfold applyLayerProps at ih ⊢
      rw [List.foldl_append, List.foldl_cons, List.foldl_nil, ih]
      unfold propValues at ih ⊢
      rw [List.filterMap_append, List.filterMap_append]
      by_cases hbg : p.1 = "bgLayer"
      · have hpr : p.1 ≠ "priority" := by rw [hbg]; decide
        simp [hbg, hpr, List.getLast?_concat]
      · by_cases hpr : p.1 = "priority"
        · simp [hbg, hpr, List.getLast?_concat]
        · simp [hbg, hpr]

/-- C8: the render metadata of the layer at a given position is the positional
default — background layer 2 / priority 1 for the first layer, 1 / 0 for the
second, and the first layer's defaults for every further layer — overridden
componentwise by the (last) explicit named property `bgLayer` or `priority`
on that layer, when present. -/
theorem c8_layer_metadata (layerIndex : Nat) (props : List (String × Int)) :
    layerMeta layerIndex props
      = ((propValues "bgLayer" props).getLast?.getD (if layerIndex = 1 then 1 else 2),
         (propValues "priority" props).getLast?.getD (if layerIndex = 1 then 0 else 1)) := by
  unfold layerMeta
  rw [applyLayerProps_spec]
  unfold defaultMeta
  by_cases h0 : layerIndex = 0
  · simp [h0]
  · by_cases h1 : layerIndex = 1
    · simp [h0, h1]
    · simp [h0, h1]

/- ---------------------------------------------------------------------
The authored-GID → game-tile-ID mapping (C6).
--------------------------------------------------------------------- -/

/-- Two tileset declarations whose authored GID ranges share no GID. -/
def rangesDisjoint (a b : TilesetDecl) : Prop :=
  ∀ g : Int, ¬ (coversGid a g ∧ coversGid b g)

/-- Applying one dictionary assignment. -/
theorem insertGid_apply (m : Int → Option Int) (k v g : Int) :
    insertGid m k v g = if g = k then some v else m g := rfl

/-- Folding the per-tileset inner loop over `range n`: the dictionary gains
exactly the keys `fg + i` for `i < n`, each bound to `ef + i`. -/
theorem range_fold_lookup (fg ef : Int) :
    ∀ (n : Nat) (m : Int → Option Int) (g : Int),
      ((List.range n).foldl
          (fun (m : Int → Option Int) (i : Nat) => insertGid m (fg + i) (ef + i)) m) g
        = if fg ≤ g ∧ g < fg + n then some (ef + (g - fg)) else m g := by
  intro n
  induction n with
  | zero =>
      intro m g
      rw [List.range_zero, List.foldl_nil, if_neg]
      omega
  | succ n ih =>
      intro m g
      rw [List.range_succ, List.foldl_append, List.foldl_cons, List.foldl_nil,
        insertGid_apply]
      by_cases hg : g = fg + n
      · rw [if_pos hg, if_pos (by push_cast; omega)]
        simp only [Option.some.injEq]
        omega
      · rw [if_neg hg, ih m g]
        by_cases hc : fg ≤ g ∧ g < fg + n
        · rw [if_pos hc, if_pos (by push_cast; omega)]
        · rw [if_neg hc, if_neg (by push_cast; omega)]

/-- Effect of one tileset declaration on the GID dictionary. -/
theorem addTileset_spec (m : Int → Option Int) (d : TilesetDecl) (g : Int) :
    addTileset m d g
      = if coversGid d g then some (expectedFirstId d.name d.firstgid + (g - d.firstgid))
        else m g := by
  unfold addTileset coversGid
  rw [range_fold_lookup]

/-- A GID covered by no declaration is left untouched by the whole fold. -/
theorem foldl_addTileset_not_covered :
    ∀ (decls : List TilesetDecl) (m : Int → Option Int) (g : Int),
      (∀ d ∈ decls, ¬ coversGid d g) → (decls.foldl addTileset m) g = m g := by
  intro decls
  induction decls with
  | nil => intro m g _; rfl
  | cons hd tl ih =>
      intro m g h
      rw [List.foldl_cons, ih (addTileset m hd) g fun d hd' => h d (List.mem_cons_of_mem hd hd'),
        addTileset_spec, if_neg (h hd (List.mem_cons_self hd tl))]

/-- With pairwise disjoint authored ranges, a covered GID is bound to its own
declaration's canonical value. -/
theorem foldl_addTileset_covered :
    ∀ (decls : List TilesetDecl) (m : Int → Option Int) (d : TilesetDecl) (g : Int),
      List.Pairwise rangesDisjoint decls → d ∈ decls → coversGid d g →
        (decls.foldl addTileset m) g
          = some (expectedFirstId d.name d.firstgid + (g - d.firstgid)) := by
  intro decls
  induction decls with
  | nil => intro m d g _ hd; cases hd
  | cons hd tl ih =>
      intro m d g hpw hmem hcov
      rw [List.foldl_cons]
      rcases List.mem_cons.mp hmem with heq | htl
      · subst heq
        have hnone : ∀ e ∈ tl, ¬ coversGid e g := fun e he hc =>
          (List.pairwise_cons.mp hpw).1 e he g ⟨hcov, hc⟩
        rw [foldl_addTileset_not_covered tl _ g hnone, addTileset_spec, if_pos hcov]
      · exact ih (addTileset m hd) d g (List.pairwise_cons.mp hpw).2 htl hcov

/-- The concrete document of the C6 counterexample: an atlas named `plants`
declared with `firstgid = 0` and two tiles, and an atlas named `decals`
declared with `firstgid = 1` and one tile, so that GID 0 is covered by an
atlas range and GID 1 is covered by two overlapping ranges. -/
def c6decls : List TilesetDecl := [⟨0, "plants", 2⟩, ⟨1, "decals", 1⟩]

/-- Counterexample for C6 as stated.  GID 0 is covered by the resolved
`plants` range `[0, 2)` and is remapped to 56 rather than to canonical ID 0,
so the clause "GID 0 maps to canonical ID 0" fails; GID 1, covered by the
`plants` range at offset 1, is remapped to 216 (the later overlapping `decals`
range wins) rather than to `canonicalFirstId + 1 = 57`, so the clause "every
covered GID maps to canonicalFirstId plus the same offset" also fails. -/
theorem c6_counterexample :
    coversGid ⟨0, "plants", 2⟩ 0 ∧ gidToGameId c6decls 0 = 56 ∧ gidToGameId c6decls 0 ≠ 0 ∧
      coversGid ⟨0, "plants", 2⟩ 1 ∧ gidToGameId c6decls 1 = 216 ∧
      gidToGameId c6decls 1 ≠ expectedFirstId "plants" 0 + 1 := by
  decide

/-- C6 amended: provided the declared atlas ranges are pairwise disjoint and
no range covers GID 0, GID remapping is the total function that sends a GID
covered by a resolved atlas range `[declaredFirstId, declaredFirstId +
tileCount)` to `canonicalFirstId` plus the same offset, GID 0 to canonical
ID 0, and every GID covered by no known atlas range to canonical ID 0 rather
than failing. -/
theorem c6_gid_remap_amended (decls : List TilesetDecl)
    (hdisj : List.Pairwise rangesDisjoint decls) :
    (∀ d ∈ decls, ∀ i : Nat, i < d.tileCount →
        gidToGameId decls (d.firstgid + i) = expectedFirstId d.name d.firstgid + i)
      ∧ (∀ g : Int, (∀ d ∈ decls, ¬ coversGid d g) → gidToGameId decls g = 0)
      ∧ ((∀ d ∈ decls, ¬ coversGid d 0) → gidToGameId decls 0 = 0) := by
  refine ⟨?_, ?_, ?_⟩
  · intro d hd i hi
    have hcov : coversGid d (d.firstgid + i) := by
      unfold coversGid
      omega
    unfold gidToGameId buildGidMap
    rw [foldl_addTileset_covered decls _ d _ hdisj hd hcov]
    simp only [Option.getD_some]
    omega
  · intro g hg
    unfold gidToGameId buildGidMap
    rw [foldl_addTileset_not_covered decls _ g hg]
    by_cases h0 : g = 0
    · rw [if_pos h0]; rfl
    · rw [if_neg h0]; rfl
  · intro h0
    unfold gidToGameId buildGidMap
    rw [foldl_addTileset_not_covered decls _ 0 h0, if_pos rfl]
    rfl

/-- Witness for the amended C6 on the concrete single-atlas document of the
game (`grassy_stone` at declared first GID 1 with 55 tiles): the covered GID 4
keeps its value 4, the uncovered GID 100 and GID 0 map to 0. -/
theorem c6_gid_remap_amended_witness :
    gidToGameId [⟨1, "grassy_stone", 55⟩] (1 + (3 : Nat)) = expectedFirstId "grassy_stone" 1 + (3 : Nat) ∧
      gidToGameId [⟨1, "grassy_stone", 55⟩] 100 = 0 ∧
      gidToGameId [⟨1, "grassy_stone", 55⟩] 0 = 0 := by
  have h := c6_gid_remap_amended [⟨1, "grassy_stone", 55⟩] (List.pairwise_singleton _ _)
  refine ⟨h.1 ⟨1, "grassy_stone", 55⟩ (List.mem_singleton_self _) 3 (by decide), ?_, ?_⟩
  · exact h.2.1 100 (by intro d hd; rw [List.mem_singleton.mp hd]; decide)
  · exact h.2.2 (by intro d hd; rw [List.mem_singleton.mp hd]; decide)

/- ---------------------------------------------------------------------
Characterisation of `validate_level` (C1, C4, C5).
--------------------------------------------------------------------- -/

/-- A conditional singleton is empty exactly when its condition fails. -/
theorem ite_singleton_eq_nil {α : Type} {c : Prop} [Decidable c] {v : α} :
    (if c then [v] else []) = [] ↔ ¬c := by
  split <;> simp_all

/-- Membership in a conditional singleton. -/
theorem mem_ite_singleton_iff {α : Type} {c : Prop} [Decidable c] {v x : α} :
    (v ∈ (if c then [x] else [])) ↔ (c ∧ v = x) := by
  by_cases hc : c <;> simp [hc]

/-- When `validate_level` reports nothing about one layer, the layer has the
expected row count, every row the expected column count, and every tile value
is within `[0, 65535]`. -/
theorem layerErrors_eq_nil_iff (w h : Int) (i : Nat) (l : RawLayer) :
    layerErrors w h i l = []
      ↔ ((l.tiles.length : Int) = h ∧
          ∀ row ∈ l.tiles, (row.length : Int) = w ∧ ∀ t ∈ row, 0 ≤ t ∧ t ≤ 65535) := by
  unfold layerErrors
  rw [List.append_eq_nil, ite_singleton_eq_nil, not_not, List.flatMap_eq_nil_iff]
  refine and_congr Iff.rfl ?_
  simp only [List.forall_mem_iff_getElem, List.enum_length, List.getElem_enum]
  refine forall_congr' fun j => forall_congr' fun hj => ?_
  rw [List.append_eq_nil, ite_singleton_eq_nil, not_not, List.filterMap_eq_nil_iff]
  refine and_congr Iff.rfl ?_
  simp only [List.forall_mem_iff_getElem, List.enum_length, List.getElem_enum]
  refine forall_congr' fun k => forall_congr' fun hk => ?_
  constructor
  · intro hnone
    by_contra hc
    rw [if_pos (by omega)] at hnone
    cases hnone
  · intro hb
    rw [if_neg (by omega)]

/-- The layer loop of the validator reports nothing exactly when every layer
has the expected shape and tile bounds. -/
theorem allLayerErrors_eq_nil_iff (w h : Int) (layers : List RawLayer) :
    allLayerErrors w h layers = []
      ↔ ∀ l ∈ layers, (l.tiles.length : Int) = h ∧
          ∀ row ∈ l.tiles, (row.length : Int) = w ∧ ∀ t ∈ row, 0 ≤ t ∧ t ≤ 65535 := by
  unfold allLayerErrors
  rw [List.flatMap_eq_nil_iff]
  simp only [List.forall_mem_iff_getElem, List.enum_length, List.getElem_enum,
    layerErrors_eq_nil_iff]

/-- The spawn checks report nothing exactly when the spawn point is inside the
pixel bounds of the level. -/
theorem spawnErrors_eq_nil_iff (sp : SpawnPt) (w h tw th : Int) :
    spawnErrors sp w h tw th = []
      ↔ (0 ≤ sp.x ∧ sp.x < w * tw) ∧ (0 ≤ sp.y ∧ sp.y < h * th) := by
  unfold spawnErrors
  rw [List.append_eq_nil, ite_singleton_eq_nil, ite_singleton_eq_nil,
    not_or, not_or, not_lt, not_lt, not_le, not_le]

/-- The object-count check reports nothing exactly when there are at most 256
objects. -/
theorem objectErrors_eq_nil_iff (objs : List ObjData) :
    objectErrors objs = [] ↔ objs.length ≤ 256 := by
  unfold objectErrors
  rw [ite_singleton_eq_nil, not_lt]

/-- The semantic reading of checks (2)-(6) of the validator: dimensions within
`[1, 256]`, at least one layer, every layer grid exactly `height` rows of
`width` in-range tiles, spawn inside the pixel bounds, at most 256 objects. -/
def mainOk (d : LevelData) : Prop :=
  (¬ (d.width.getD 0 ≤ 0 ∨ 256 < d.width.getD 0)) ∧
  (¬ (d.height.getD 0 ≤ 0 ∨ 256 < d.height.getD 0)) ∧
  (d.layers.getD []) ≠ [] ∧
  (∀ l ∈ d.layers.getD [], (l.tiles.length : Int) = d.height.getD 0 ∧
    ∀ row ∈ l.tiles, (row.length : Int) = d.width.getD 0 ∧ ∀ t ∈ row, 0 ≤ t ∧ t ≤ 65535) ∧
  ((0 ≤ (d.playerSpawn.getD ⟨0, 0⟩).x ∧
      (d.playerSpawn.getD ⟨0, 0⟩).x < d.width.getD 0 * d.tileWidth) ∧
    (0 ≤ (d.playerSpawn.getD ⟨0, 0⟩).y ∧
      (d.playerSpawn.getD ⟨0, 0⟩).y < d.height.getD 0 * d.tileHeight)) ∧
  d.objects.length ≤ 256

/-- The main pass of the validator reports nothing exactly when all the
semantic conditions of checks (2)-(6) hold. -/
theorem mainChecks_eq_nil_iff (d : LevelData) :
    mainChecks d = [] ↔ mainOk d := by
  unfold mainChecks mainOk
  rw [List.append_eq_nil, List.append_eq_nil, List.append_eq_nil, List.append_eq_nil,
    List.append_eq_nil, ite_singleton_eq_nil, ite_singleton_eq_nil, ite_singleton_eq_nil,
    allLayerErrors_eq_nil_iff, spawnErrors_eq_nil_iff, objectErrors_eq_nil_iff,
    List.isEmpty_iff]
  constructor
  · rintro ⟨⟨⟨⟨⟨h1, h2⟩, h3⟩, h4⟩, h5⟩, h6⟩
    exact ⟨h1, h2, h3, h4, h5, h6⟩
  · rintro ⟨h1, h2, h3, h4, h5, h6⟩
    exact ⟨⟨⟨⟨⟨h1, h2⟩, h3⟩, h4⟩, h5⟩, h6⟩

/-- When all required fields are present, validation reports exactly the main
checks (no early abort). -/
theorem validate_of_required_nil {d : LevelData} (hreq : requiredErrors d = []) :
    validate_level d = mainChecks d := by
  unfold validate_level
  rw [hreq]
  rfl

/-- A passing validation implies that no required field was missing. -/
theorem required_nil_of_validate_nil {d : LevelData} (h : validate_level d = []) :
    requiredErrors d = [] := by
  unfold validate_level at h
  by_cases hr : (requiredErrors d).isEmpty
  · exact List.isEmpty_iff.mp hr
  · rw [if_neg hr] at h
    exact h

/-- Validation passes exactly when all required fields are present and every
semantic condition of checks (2)-(6) holds. -/
theorem validate_nil_iff (d : LevelData) :
    validate_level d = [] ↔ (requiredErrors d = [] ∧ mainOk d) := by
  constructor
  · intro h
    have hreq := required_nil_of_validate_nil h
    rw [validate_of_required_nil hreq, mainChecks_eq_nil_iff] at h
    exact ⟨hreq, h⟩
  · rintro ⟨hreq, hok⟩
    rw [validate_of_required_nil hreq, mainChecks_eq_nil_iff]
    exact hok

/- ---------------------------------------------------------------------
C1: no capacity check exists; large tile counts only warn.
--------------------------------------------------------------------- -/

/-- C1 amended: the converter has no `CapacityExceeded` failure at all.  Every
document that passes validation compiles successfully regardless of its
distinct-tile count, and whenever the distinct non-zero tile count exceeds
1000 (in particular anywhere in 1001-2048, but also beyond 2048) the only
effect is that the VRAM warning is emitted. -/
theorem c1_no_capacity_failure (d : LevelData) (h : validate_level d = []) :
    (compileLevel d).isOk = true ∧
      (1000 < uniqueNonzeroTileCount (d.layers.getD []) → vramWarning d = true) := by
  constructor
  · unfold compileLevel
    obtain ⟨cls, hcls⟩ := Option.isSome_iff_exists.mp (remapLayers_isSome (d.layers.getD []))
    rw [h, hcls]
    rfl
  · intro hc
    unfold vramWarning
    exact decide_eq_true hc

/-- Witness for the amended C1 at a small valid document. -/
theorem c1_no_capacity_failure_witness :
    (compileLevel
        ⟨some "t", some 2, some 1, 8, 8, some [⟨"m", 2, 1, [[1, 3]]⟩], some ⟨0, 0⟩,
          [], [], [1, 2, 55]⟩).isOk = true :=
  (c1_no_capacity_failure
    ⟨some "t", some 2, some 1, 8, 8, some [⟨"m", 2, 1, [[1, 3]]⟩], some ⟨0, 0⟩,
      [], [], [1, 2, 55]⟩ (by decide)).1

/-- A `flatMap` of singletons is a `map`. -/
theorem flatMap_singleton_map {α β : Type} (f : α → β) :
    ∀ l : List α, (l.flatMap fun a => [f a]) = l.map f := by
  intro l
  induction l with
  | nil => rfl
  | cons x xs ih => rw [List.flatMap_cons, List.map_cons, ih]; rfl

/-- The 2049 one-cell layers using the 2049 distinct canonical tiles 1, ..., 2049. -/
def bigLayers : List RawLayer :=
  (List.range 2049).map fun (i : Nat) => ⟨"L", 2, 1, [[(i : Int) + 1]]⟩

/-- A 1×1 level document with the 2049 layers of `bigLayers`; it passes every
check of `validate_level`. -/
def bigDoc : LevelData :=
  ⟨some "big", some 1, some 1, 8, 8, some bigLayers, some ⟨0, 0⟩, [], [], []⟩

/-- The tiles of `bigLayers` flatten to the 2049 values 1, ..., 2049. -/
theorem allTiles_bigLayers :
    allTiles bigLayers = (List.range 2049).map fun (i : Nat) => (i : Int) + 1 := by
  unfold allTiles bigLayers
  rw [List.flatMap_map]
  exact flatMap_singleton_map (fun (i : Nat) => (i : Int) + 1) (List.range 2049)

/-- The tile list of `bigLayers` has no duplicates. -/
theorem nodup_allTiles_bigLayers : (allTiles bigLayers).Nodup := by
  rw [allTiles_bigLayers]
  apply List.Nodup.map
  · intro a b hab
    have hab' : (a : Int) + 1 = (b : Int) + 1 := hab
    omega
  · exact List.nodup_range 2049

/-- The tile list of `bigLayers` has 2049 entries. -/
theorem length_allTiles_bigLayers : (allTiles bigLayers).length = 2049 := by
  rw [allTiles_bigLayers, List.length_map, List.length_range]

/-- The layer list carried by `bigDoc`. -/
theorem bigDoc_layers : bigDoc.layers.getD [] = bigLayers := by
  rw [show bigDoc.layers = some bigLayers from rfl, Option.getD_some]

/-- Counterexample for C1 as stated.  `bigDoc` uses 2049 > 2048 distinct
canonical tile IDs across its layers, yet compilation succeeds: validation
reports nothing and the pipeline returns a compiled level — the converter has
no `CapacityExceeded` failure path. -/
theorem c1_counterexample :
    2048 < (unique_tiles bigLayers).length ∧
      2048 < uniqueNonzeroTileCount bigLayers ∧
      validate_level bigDoc = [] ∧
      (compileLevel bigDoc).isOk = true := by
  have hval : validate_level bigDoc = [] := by
    rw [validate_nil_iff]
    refine ⟨rfl, ?_, ?_, ?_, ?_, ?_, ?_⟩
    · decide
    · decide
    · rw [bigDoc_layers]
      intro hnil
      have hlen := congrArg List.length hnil
      rw [show bigLayers.length = 2049 from by
        unfold bigLayers; rw [List.length_map, List.length_range]] at hlen
      simp at hlen
    · intro l hl
      rw [bigDoc_layers] at hl
      have hl' := hl
      unfold bigLayers at hl'
      obtain ⟨i, hi, rfl⟩ := List.mem_map.mp hl'
      have hi' : i < 2049 := List.mem_range.mp hi
      refine ⟨rfl, ?_⟩
      intro row hrow
      have hrow' : row = [(i : Int) + 1] := List.mem_singleton.mp hrow
      subst hrow'
      refine ⟨rfl, ?_⟩
      intro t ht
      have ht' : t = (i : Int) + 1 := List.mem_singleton.mp ht
      subst ht'
      constructor <;> omega
    · decide
    · decide
  refine ⟨?_, ?_, hval, ?_⟩
  · unfold unique_tiles
    rw [List.length_insertionSort, List.dedup_eq_self.mpr nodup_allTiles_bigLayers,
      length_allTiles_bigLayers]
    omega
  · unfold uniqueNonzeroTileCount
    have hfil : (allTiles bigLayers).filter (fun t => 0 < t) = allTiles bigLayers := by
      apply List.filter_eq_self.mpr
      intro a ha
      rw [allTiles_bigLayers] at ha
      obtain ⟨i, _, rfl⟩ := List.mem_map.mp ha
      exact decide_eq_true (by omega)
    rw [hfil, List.dedup_eq_self.mpr nodup_allTiles_bigLayers, length_allTiles_bigLayers]
    omega
  · unfold compileLevel
    obtain ⟨cls, hcls⟩ :=
      Option.isSome_iff_exists.mp (remapLayers_isSome (bigDoc.layers.getD []))
    rw [hval, hcls]
    rfl

/- ---------------------------------------------------------------------
C4: shape and range invariants of the compiled slot grids.
--------------------------------------------------------------------- -/

/-- Every element on the right of a `Forall₂` has a related element on the
left. -/
theorem forall₂_mem_right {α β : Type} {R : α → β → Prop} {xs : List α} {ys : List β}
    (h : List.Forall₂ R xs ys) : ∀ {b : β}, b ∈ ys → ∃ a ∈ xs, R a b := by
  induction h with
  | nil => intro b hb; cases hb
  | cons hR _ ih =>
      intro b hb
      rcases List.mem_cons.mp hb with rfl | hb
      · exact ⟨_, List.mem_cons_self _ _, hR⟩
      · obtain ⟨a, ha, hRa⟩ := ih hb
        exact ⟨a, List.mem_cons_of_mem _ ha, hRa⟩

/-- The total cell count of a grid whose rows all have the same width. -/
theorem sum_map_length {α : Type} (n : Nat) :
    ∀ L : List (List α), (∀ row ∈ L, row.length = n) →
      (L.map List.length).sum = L.length * n := by
  intro L
  induction L with
  | nil => intro _; simp
  | cons r L ih =>
      intro hr
      rw [List.map_cons, List.sum_cons, ih fun row h => hr row (List.mem_cons_of_mem r h),
        hr r (List.mem_cons_self r L), List.length_cons]
      ring

/-- C4: for every document the pipeline compiles successfully (in particular,
one that passed validation), every compiled layer's slot array has exactly
`height × width` entries, and every entry is a valid index into the emitted
`uniqueTileIds` sequence, i.e. lies in `[0, len uniqueTileIds)`. -/
theorem c4_slot_grid_invariants (d : LevelData) (lv : CompiledLevel)
    (h : compileLevel d = .ok lv) :
    ∀ cl ∈ lv.layers,
      cl.tiles.length = (d.height.getD 0).toNat * (d.width.getD 0).toNat ∧
        ∀ s ∈ cl.tiles, s < lv.uniqueTileIds.length := by
  unfold compileLevel at h
  split at h
  case isFalse => exact Except.noConfusion h
  case isTrue hval =>
    split at h
    case h_1 => exact Except.noConfusion h
    case h_2 cls hcls =>
      injection h with h
      subst h
      have hnil : validate_level d = [] := List.isEmpty_iff.mp hval
      have hreq := required_nil_of_validate_nil hnil
      have hmain : mainChecks d = [] := by
        rw [← validate_of_required_nil hreq]
        exact hnil
      have hshape := ((mainChecks_eq_nil_iff d).mp hmain).2.2.2.1
      intro cl hcl
      have hf := mapM_forall₂ (remapLayer (d.layers.getD [])) (by
        unfold remapLayers at hcls
        exact hcls)
      obtain ⟨l, hl, hre⟩ := forall₂_mem_right hf hcl
      unfold remapLayer at hre
      cases hts : l.tiles.flatten.mapM (tile_id_to_vram (d.layers.getD [])) with
      | none => rw [hts] at hre; exact Option.noConfusion hre
      | some ts =>
          rw [hts] at hre
          injection hre with hre
          subst hre
          have hcf := mapM_forall₂ _ hts
          have hlen : ts.length = l.tiles.flatten.length :=
            (List.Forall₂.length_eq hcf).symm
          obtain ⟨hrows, hcells⟩ := hshape l hl
          constructor
          · show ts.length = _
            rw [hlen, List.length_flatten,
              sum_map_length (d.width.getD 0).toNat l.tiles
                (fun row hrow => by have := (hcells row hrow).1; omega)]
            have : l.tiles.length = (d.height.getD 0).toNat := by omega
            rw [this]
          · intro s hs
            obtain ⟨t, htm, hlk⟩ := forall₂_mem_right hcf hs
            unfold tile_id_to_vram at hlk
            split at hlk
            case isTrue hmem =>
              injection hlk with hlk
              show s < (unique_tiles (d.layers.getD [])).length
              rw [← hlk]
              exact List.indexOf_lt_length.mpr hmem
            case isFalse => exact Option.noConfusion hlk

/-- Witness document for C4: the 2×1 level with tiles 1 and 3. -/
def c4doc : LevelData :=
  ⟨some "t", some 2, some 1, 8, 8, some [⟨"m", 2, 1, [[1, 3]]⟩], some ⟨0, 0⟩,
    [], [], [1, 2, 55]⟩

/-- The compiled form of `c4doc`. -/
def c4lv : CompiledLevel :=
  ⟨"t", 2, 1, [1, 3], [0, 0], [⟨"m", 2, 1, [0, 1]⟩], (List.replicate 64 0).set 0 1,
    [], ⟨0, 0⟩⟩

/-- Witness for C4: the single compiled layer of `c4doc` has `1 × 2` slots and
slot value 1 is a valid index into the two emitted unique tile IDs. -/
theorem c4_slot_grid_invariants_witness :
    (⟨"m", 2, 1, [0, 1]⟩ : CompiledLayer).tiles.length
        = (c4doc.height.getD 0).toNat * (c4doc.width.getD 0).toNat ∧
      (1 : Nat) < c4lv.uniqueTileIds.length :=
  ⟨(c4_slot_grid_invariants c4doc c4lv rfl ⟨"m", 2, 1, [0, 1]⟩ (by decide)).1,
   (c4_slot_grid_invariants c4doc c4lv rfl ⟨"m", 2, 1, [0, 1]⟩ (by decide)).2 1 (by decide)⟩

/- ---------------------------------------------------------------------
C5: the validator's aggregation behaviour.
--------------------------------------------------------------------- -/

/-- Every violation produced by the layer loop is a layer-shaped one. -/
theorem allLayerErrors_shapes {w h : Int} {layers : List RawLayer} {v : Violation}
    (hv : v ∈ allLayerErrors w h layers) :
    (∃ a b c, v = .layerRows a b c) ∨ (∃ a b c e, v = .rowCols a b c e) ∨
      (∃ a b c t, v = .invalidTile a b c t) := by
  unfold allLayerErrors layerErrors at hv
  rcases List.mem_flatMap.mp hv with ⟨p, _, hv⟩
  rcases List.mem_append.mp hv with hv | hv
  · rcases mem_ite_singleton_iff.mp hv with ⟨_, rfl⟩
    exact Or.inl ⟨_, _, _, rfl⟩
  · rcases List.mem_flatMap.mp hv with ⟨q, _, hv⟩
    rcases List.mem_append.mp hv with hv | hv
    · rcases mem_ite_singleton_iff.mp hv with ⟨_, rfl⟩
      exact Or.inr (Or.inl ⟨_, _, _, _, rfl⟩)
    · rcases List.mem_filterMap.mp hv with ⟨r, _, hv⟩
      split at hv
      · injection hv with hv
        subst hv
        exact Or.inr (Or.inr ⟨_, _, _, _, rfl⟩)
      · exact Option.noConfusion hv

/-- Every violation produced by the spawn checks concerns the spawn point. -/
theorem spawnErrors_shapes {sp : SpawnPt} {w h tw th : Int} {v : Violation}
    (hv : v ∈ spawnErrors sp w h tw th) :
    (∃ x, v = .spawnXOut x) ∨ (∃ y, v = .spawnYOut y) := by
  unfold spawnErrors at hv
  rcases List.mem_append.mp hv with hv | hv
  · rcases mem_ite_singleton_iff.mp hv with ⟨_, rfl⟩
    exact Or.inl ⟨_, rfl⟩
  · rcases mem_ite_singleton_iff.mp hv with ⟨_, rfl⟩
    exact Or.inr ⟨_, rfl⟩

/-- No width violation ever comes from the layer loop. -/
theorem invalidWidth_not_mem_allLayerErrors {w h : Int} {layers : List RawLayer} {a : Int} :
    Violation.invalidWidth a ∉ allLayerErrors w h layers := by
  intro hv
  rcases allLayerErrors_shapes hv with ⟨_, _, _, he⟩ | ⟨_, _, _, _, he⟩ | ⟨_, _, _, _, he⟩ <;>
    exact Violation.noConfusion he

/-- No width violation ever comes from the spawn checks. -/
theorem invalidWidth_not_mem_spawnErrors {sp : SpawnPt} {w h tw th : Int} {a : Int} :
    Violation.invalidWidth a ∉ spawnErrors sp w h tw th := by
  intro hv
  rcases spawnErrors_shapes hv with ⟨_, he⟩ | ⟨_, he⟩ <;> exact Violation.noConfusion he

/-- No object-count violation ever comes from the layer loop. -/
theorem tooManyObjects_not_mem_allLayerErrors {w h : Int} {layers : List RawLayer} {n : Nat} :
    Violation.tooManyObjects n ∉ allLayerErrors w h layers := by
  intro hv
  rcases allLayerErrors_shapes hv with ⟨_, _, _, he⟩ | ⟨_, _, _, _, he⟩ | ⟨_, _, _, _, he⟩ <;>
    exact Violation.noConfusion he

/-- No object-count violation ever comes from the spawn checks. -/
theorem tooManyObjects_not_mem_spawnErrors {sp : SpawnPt} {w h tw th : Int} {n : Nat} :
    Violation.tooManyObjects n ∉ spawnErrors sp w h tw th := by
  intro hv
  rcases spawnErrors_shapes hv with ⟨_, he⟩ | ⟨_, he⟩ <;> exact Violation.noConfusion he

/-- The document of the C5 counterexample: the required field `name` is
missing *and* the width 0 violates check (2). -/
def c5doc : LevelData :=
  ⟨none, some 0, some 1, 8, 8, some [⟨"m", 2, 1, [[1]]⟩], some ⟨0, 0⟩, [], [], []⟩

/-- Counterexample for C5 as stated.  On `c5doc` the validator raises after
the required-field loop and reports only the missing `name`; the width
violation of check (2) — which the main pass would find, as the second
conjunct shows — is absent from the reported aggregate, so the validator does
not accumulate every violation of checks (1)-(6) in one pass. -/
theorem c5_counterexample :
    validate_level c5doc = [Violation.missingField "name"] ∧
      Violation.invalidWidth 0 ∈ mainChecks c5doc ∧
      Violation.invalidWidth 0 ∉ validate_level c5doc := by
  refine ⟨by decide, by decide, ?_⟩
  intro hv
  rw [show validate_level c5doc = [Violation.missingField "name"] from by decide] at hv
  rcases List.mem_singleton.mp hv with he
  exact Violation.noConfusion he

/-- C5 amended: the required-field check (1) is fail-fast — when a required
field is missing the validator aborts with only the missing-field violations,
before checks (2)-(6) run.  When every required field is present, checks
(2)-(6) are accumulated across the whole pass: the reported aggregate is
exactly the main pass's findings, a width (resp. object-count) violation is
reported iff its own condition is violated regardless of any other failure,
and the validator reports nothing iff every semantic condition of (2)-(6)
holds.  The unique-tile-budget warning is not a violation and never aborts
(for any document that validates, compilation succeeds and at most warns, cf.
the C1 theorem). -/
theorem c5_aggregation (d : LevelData) (hreq : requiredErrors d = []) :
    validate_level d = mainChecks d ∧
      (Violation.invalidWidth (d.width.getD 0) ∈ validate_level d
        ↔ (d.width.getD 0 ≤ 0 ∨ 256 < d.width.getD 0)) ∧
      (Violation.tooManyObjects d.objects.length ∈ validate_level d
        ↔ 256 < d.objects.length) ∧
      (validate_level d = [] ↔ mainOk d) := by
  have hv := validate_of_required_nil hreq
  refine ⟨hv, ?_, ?_, ?_⟩
  · rw [hv]
    unfold mainChecks objectErrors
    simp [List.mem_append, mem_ite_singleton_iff,
      invalidWidth_not_mem_allLayerErrors, invalidWidth_not_mem_spawnErrors]
  · rw [hv]
    unfold mainChecks objectErrors
    simp [List.mem_append, mem_ite_singleton_iff,
      tooManyObjects_not_mem_allLayerErrors, tooManyObjects_not_mem_spawnErrors]
  · rw [hv, mainChecks_eq_nil_iff]

/-- Witness document for the amended C5: all required fields present, width
300 out of range. -/
def c5okdoc : LevelData :=
  ⟨some "t", some 300, some 1, 8, 8, some [⟨"m", 2, 1, [[1]]⟩], some ⟨0, 0⟩, [], [], []⟩

/-- Witness for the amended C5: on `c5okdoc` the reported aggregate is the
main pass's findings and it contains the width violation. -/
theorem c5_aggregation_witness :
    validate_level c5okdoc = mainChecks c5okdoc ∧
      Violation.invalidWidth 300 ∈ validate_level c5okdoc :=
  ⟨(c5_aggregation c5okdoc (by decide)).1,
   (c5_aggregation c5okdoc (by decide)).2.1.mpr (by decide)⟩
